import Mathlib

/-!
Shallow embedding of the comment and playlist controllers of the
youtube-with-twitter backend (src/src/controllers/comment.controller.js and
src/src/controllers/playlist.controller.js).

Documents are records, the store is five lists (users, videos, comments,
likes, playlists).  Mongoose / MongoDB operations are translated to explicit
list manipulation:
  * `Model.findById` — first element with the given `_id`;
  * `$lookup` — filter of the foreign collection by the foreign field;
  * `$match` after a `$lookup` — a document level predicate (it keeps or
    drops whole documents, it never narrows the joined array);
  * `$addToSet` — append if absent; `$pull` — remove all occurrences;
  * `findByIdAndUpdate` / `findByIdAndDelete` — update / remove the first
    element with the given `_id`;
  * `Model.updateMany(filter)` with no update document — mongoose skips an
    empty update, so it is a no-op on the store;
  * a thrown `ApiError(status, msg)` — an `Except.error`.
JavaScript peculiarities that the controllers rely on are modelled
explicitly: `&&` on strings (`jsAnd`), `parseInt` (`jsParseInt`),
destructuring defaults that fire only for a missing property
(`Option String` inputs), and `mongoose.isValidObjectId`.
-/

/-- A MongoDB ObjectId, kept as its string form. -/
abbrev Oid := String

/-- mongoose `isValidObjectId` on a string: any 12 character string, or a
24 character hex string. -/
def isValidObjectId (s : String) : Bool :=
  s.length == 12 ||
    (s.length == 24 && s.data.all (fun c =>
      c.isDigit || ('a' ≤ c && c ≤ 'f') || ('A' ≤ c && c ≤ 'F')))

/-- JavaScript `a && b` on strings: the empty string is the only falsy
string, so the expression yields `a` when `a` is empty and `b` otherwise. -/
def jsAnd (a b : String) : String :=
  if a == "" then a else b

/-- Leading decimal digits of a character list. -/
def leadDigits : List Char → List Char
  | [] => []
  | c :: rest => if c.isDigit then c :: leadDigits rest else []

/-- JavaScript `parseInt(s, 10)`: skip leading whitespace, read an optional
sign and the longest digit run; `none` models `NaN`. -/
def jsParseInt (s : String) : Option Int :=
  let chars := s.data.dropWhile (fun c =>
    c == ' ' || c == '\t' || c == '\n' || c == '\r')
  let signed : Bool × List Char :=
    match chars with
    | '-' :: r => (true, r)
    | '+' :: r => (false, r)
    | r => (false, r)
  let ds := leadDigits signed.2
  if ds.isEmpty then none
  else
    let n : Nat := ds.foldl (fun acc c => acc * 10 + (c.toNat - 48)) 0
    some (if signed.1 then -(n : Int) else (n : Int))

/-- `ApiError(statusCode, message)` as thrown by the controllers. -/
structure ApiError where
  statusCode : Nat
  message : String
  deriving Repr, DecidableEq

/-- A user document (only the fields the controllers read). -/
structure User where
  _id : Oid
  username : String
  fullName : String
  avatarUrl : String
  deriving Repr, DecidableEq

/-- A video document (only the fields the controllers read). -/
structure Video where
  _id : Oid
  owner : Oid
  videoFileUrl : String
  thumbnailUrl : String
  title : String
  description : String
  duration : Nat
  views : Nat
  isPublished : Bool
  createdAt : Nat
  deriving Repr, DecidableEq

/-- A comment document. -/
structure Comment where
  _id : Oid
  content : String
  owner : Oid
  video : Oid
  createdAt : Nat
  deriving Repr, DecidableEq

/-- A like document; a like references a comment or a video, `likedBy` is
the liking user. -/
structure Like where
  _id : Oid
  comment : Option Oid
  video : Option Oid
  likedBy : Oid
  deriving Repr, DecidableEq

/-- A playlist document. -/
structure Playlist where
  _id : Oid
  name : String
  description : String
  owner : Oid
  videos : List Oid
  createdAt : Nat
  updatedAt : Nat
  deriving Repr, DecidableEq

/-- The document store: the five collections the controllers touch. -/
structure Store where
  users : List User
  videos : List Video
  comments : List Comment
  likes : List Like
  playlists : List Playlist
  deriving Repr, DecidableEq

/-- `Model.findById` on a collection keyed by `_id`. -/
def findVideo (s : Store) (vid : Oid) : Option Video :=
  s.videos.find? (fun v => v._id == vid)

/-- `Comment.findById`. -/
def findComment (s : Store) (cid : Oid) : Option Comment :=
  s.comments.find? (fun c => c._id == cid)

/-- `Playlist.findById`. -/
def findPlaylist (s : Store) (pid : Oid) : Option Playlist :=
  s.playlists.find? (fun p => p._id == pid)

/-- `findByIdAndUpdate`: rewrite the first element whose `_id` matches. -/
def updateById {α : Type} (getId : α → Oid) (pid : Oid) (f : α → α) :
    List α → List α
  | [] => []
  | x :: rest =>
    if getId x == pid then f x :: rest else x :: updateById getId pid f rest

/-- `findByIdAndDelete` / `findByIdAndRemove`: drop the first element whose
`_id` matches. -/
def removeById {α : Type} (getId : α → Oid) (pid : Oid) :
    List α → List α
  | [] => []
  | x :: rest =>
    if getId x == pid then rest else x :: removeById getId pid rest

/-- `$addToSet`: append the value when it is not already present. -/
def addToSet (l : List Oid) (v : Oid) : List Oid :=
  if l.contains v then l else l ++ [v]

/-- The rewrite `addVideoToPlaylist` applies to the matched playlist:
`$addToSet {videos: videoId}`. -/
def addVidF (vid : Oid) (r : Playlist) : Playlist :=
  { r with videos := addToSet r.videos vid }

/-! ## Comment controller -/

/-- The value stored in a users document under a field name, as the owner
`$lookup` of `getVideoComments` consults it.  The pipeline in the source
names the foreign field `"_id,"` — with a trailing comma — and no user
document carries a field of that name. -/
def userField (u : User) (f : String) : Option String :=
  if f == "_id" then some u._id
  else if f == "username" then some u.username
  else if f == "fullName" then some u.fullName
  else if f == "avatarUrl" then some u.avatarUrl
  else none

/-- Owner subset projected by the read pipelines:
`{username, fullName, "avatar.url"}`. -/
structure OwnerView where
  username : String
  fullName : String
  avatarUrl : String
  deriving Repr, DecidableEq

/-- Shape of one element of the `getVideoComments` aggregation output after
the final `$project` (MongoDB keeps `_id` unless it is excluded). -/
structure CommentView where
  _id : Oid
  content : String
  createdAt : Nat
  likesCount : Nat
  owner : Option OwnerView
  isLiked : Bool
  deriving Repr, DecidableEq

/-- The likes `$lookup` of `getVideoComments`: all like documents whose
`comment` field equals this comment's `_id`. -/
def commentLikes (s : Store) (c : Comment) : List Like :=
  s.likes.filter (fun l => l.comment == some c._id)

/-- The owner `$lookup` of `getVideoComments`: users whose `"_id,"` field —
the foreign field name carries a trailing comma in the source — equals the
comment's `owner`. -/
def ownerLookup (s : Store) (c : Comment) : List User :=
  s.users.filter (fun u => userField u "_id," == some c.owner)

/-- Stable insertion into a list ordered by `createdAt` descending. -/
def insertByCreatedDesc (v : CommentView) : List CommentView → List CommentView
  | [] => [v]
  | w :: rest =>
    if v.createdAt ≤ w.createdAt then w :: insertByCreatedDesc v rest
    else v :: w :: rest

/-- `$sort {createdAt: -1}`. -/
def sortByCreatedDesc : List CommentView → List CommentView
  | [] => []
  | v :: rest => insertByCreatedDesc v (sortByCreatedDesc rest)

/-- The aggregation pipeline of `getVideoComments`: match comments of the
video, look up the owner (against the misspelled foreign field `"_id,"`),
look up the likes, derive `likesCount` / `owner` / `isLiked`, sort by
`createdAt` descending and project.  `viewer` is `req.user?._id`; when the
request carries no user the `$in` operand serialises as null and matches no
`likedBy` value. -/
def commentPipeline (s : Store) (videoId : Oid) (viewer : Option Oid) :
    List CommentView :=
  let matched := s.comments.filter (fun c => c.video == videoId)
  let views := matched.map (fun c =>
    { _id := c._id
      content := c.content
      createdAt := c.createdAt
      likesCount := (commentLikes s c).length
      owner := ((ownerLookup s c).head?).map (fun u =>
        { username := u.username, fullName := u.fullName
          avatarUrl := u.avatarUrl })
      isLiked := (commentLikes s c).any (fun l => viewer == some l.likedBy) })
  sortByCreatedDesc views

/-- Options handed to `aggregatePaginate`; `none` models JavaScript `NaN`. -/
structure PageOptions where
  page : Option Int
  limit : Option Int
  deriving Repr, DecidableEq

/-- Lines 11-12 and 79-82 of the comment controller:
`const { page = 1, limit = 10 } = req.query` followed by
`parseInt(page, 10)` / `parseInt(limit, 10)`.  The destructuring default
fires only when the query parameter is absent; `parseInt` applied to the
numeric defaults 1 and 10 returns them unchanged. -/
def paginationOptions (pageQ limitQ : Option String) : PageOptions :=
  { page := match pageQ with
      | none => some 1
      | some v => jsParseInt v
    limit := match limitQ with
      | none => some 10
      | some v => jsParseInt v }

/-- `getVideoComments`: 404 when the video does not exist, otherwise the
pipeline output together with the pagination options.  `aggregatePaginate`
itself is an external library; it returns a page — a sublist — of the
pipeline output, so per-element claims are stated over the pipeline
output. -/
def getVideoComments (s : Store) (videoId : Oid) (viewer : Option Oid)
    (pageQ limitQ : Option String) :
    Except ApiError (List CommentView × PageOptions) :=
  match findVideo s videoId with
  | none => .error ⟨404, "Video not found"⟩
  | some _ => .ok (commentPipeline s videoId viewer,
      paginationOptions pageQ limitQ)

/-- `addComment`: reject empty content, then a missing video, then persist.
`newId` and `now` stand for the id and timestamp the store generates. -/
def addComment (s : Store) (videoId content ownerId newId : Oid) (now : Nat) :
    Except ApiError Comment × Store :=
  if content == "" then (.error ⟨400, "content can not be empty"⟩, s)
  else
    match findVideo s videoId with
    | none => (.error ⟨400, "video not found"⟩, s)
    | some _ =>
      let c : Comment :=
        { _id := newId, content := content, owner := ownerId
          video := videoId, createdAt := now }
      (.ok c, { s with comments := s.comments ++ [c] })

/-- `updateComment`: reject empty content, a missing comment, a non-owner;
then `findByIdAndUpdate` with `$set {content}`. -/
def updateComment (s : Store) (commentId content userId : String) :
    Except ApiError Comment × Store :=
  if content == "" then (.error ⟨400, "content is required to update"⟩, s)
  else
    match findComment s commentId with
    | none => (.error ⟨400, "Comment not found"⟩, s)
    | some c =>
      if !(c.owner == userId) then
        (.error ⟨400, "only comment owner can edit their comment"⟩, s)
      else
        let c2 := { c with content := content }
        let comments2 :=
          updateById Comment._id c._id (fun d => { d with content := content })
            s.comments
        (.ok c2, { s with comments := comments2 })

/-- `deleteComment`: reject a missing comment and a non-owner, then
`findByIdAndDelete` the comment.  The subsequent
`Like.updateMany({comment, likedBy}) ` carries no update document, and
mongoose skips an empty update entirely, so the likes collection is left
untouched. -/
def deleteComment (s : Store) (commentId userId : String) :
    Except ApiError Oid × Store :=
  match findComment s commentId with
  | none => (.error ⟨404, "Comment not found"⟩, s)
  | some c =>
    if !(c.owner == userId) then
      (.error ⟨400, "only comment owner can delete their comment"⟩, s)
    else
      (.ok commentId,
        { s with comments := removeById Comment._id commentId s.comments,
                 likes := s.likes })

/-! ## Playlist controller -/

/-- Per-video subset projected by the playlist detail pipeline. -/
structure VideoView where
  _id : Oid
  videoFileUrl : String
  thumbnailUrl : String
  title : String
  description : String
  duration : Nat
  createdAt : Nat
  views : Nat
  deriving Repr, DecidableEq

/-- Shape of one element of the `getPlaylistById` aggregation output. -/
structure PlaylistDetail where
  _id : Oid
  name : String
  description : String
  createdAt : Nat
  updatedAt : Nat
  totalVideos : Nat
  totalViews : Nat
  videos : List VideoView
  owner : Option OwnerView
  deriving Repr, DecidableEq

/-- The video `$project` of `getPlaylistById`. -/
def projectVideo (v : Video) : VideoView :=
  { _id := v._id, videoFileUrl := v.videoFileUrl
    thumbnailUrl := v.thumbnailUrl, title := v.title
    description := v.description, duration := v.duration
    createdAt := v.createdAt, views := v.views }

/-- The owner `$project` of the playlist detail (and of the comment feed):
`{username, fullName, "avatar.url"}`. -/
def projectOwner (u : User) : OwnerView :=
  { username := u.username, fullName := u.fullName, avatarUrl := u.avatarUrl }

/-- The videos `$lookup` of the playlist pipelines: video documents whose
`_id` occurs in the playlist's `videos` array. -/
def playlistVideosLookup (s : Store) (p : Playlist) : List Video :=
  s.videos.filter (fun v => p.videos.contains v._id)

/-- The aggregation pipeline of `getPlaylistById`: match the playlist by
`_id`, look up the videos, then `$match {"videos.isPublished": true}` — a
document level match that keeps a playlist exactly when its joined videos
array holds at least one published element and leaves the array itself
untouched — then look up the owner, derive `totalVideos` / `totalViews`
over the (unfiltered) array and project. -/
def playlistDetailPipeline (s : Store) (playlistId : Oid) :
    List PlaylistDetail :=
  let matched := s.playlists.filter (fun p => p._id == playlistId)
  let joined := matched.map (fun p => (p, playlistVideosLookup s p))
  let published := joined.filter (fun pv => pv.2.any (fun v => v.isPublished))
  published.map (fun pv =>
    { _id := pv.1._id
      name := pv.1.name
      description := pv.1.description
      createdAt := pv.1.createdAt
      updatedAt := pv.1.updatedAt
      totalVideos := pv.2.length
      totalViews := (pv.2.map (fun v => v.views)).sum
      videos := pv.2.map projectVideo
      owner := ((s.users.filter (fun u => u._id == pv.1.owner)).head?).map
        projectOwner })

/-- `getPlaylistById`: 400 on a malformed id, 404 on a missing playlist,
then the first aggregation result — `playlistVideos[0]`, which is absent
(`none`) when the document level published match dropped the playlist. -/
def getPlaylistById (s : Store) (playlistId : Oid) :
    Except ApiError (Option PlaylistDetail) :=
  if !(isValidObjectId playlistId) then
    .error ⟨400, "playlistId is invalid"⟩
  else
    match findPlaylist s playlistId with
    | none => .error ⟨404, "playlist not found"⟩
    | some _ => .ok (playlistDetailPipeline s playlistId).head?

/-- `createPlaylist`: both name and description must be non-empty (JS
falsiness of the empty string); `newId`, `now` stand for store-generated
values. -/
def createPlaylist (s : Store) (name description ownerId newId : String)
    (now : Nat) : Except ApiError Playlist × Store :=
  if name == "" || description == "" then
    (.error ⟨400, "name and description both are required"⟩, s)
  else
    let p : Playlist :=
      { _id := newId, name := name, description := description
        owner := ownerId, videos := [], createdAt := now, updatedAt := now }
    (.ok p, { s with playlists := s.playlists ++ [p] })

/-- `addVideoToPlaylist`.  The validation gate is
`!(isValidObjectId(playlistId) || isValidObjectId(videoId))` — it fires
only when both ids are malformed.  The ownership gate compares
`(playlist.owner && video.owner) !== user`, where the JavaScript `&&`
yields the video owner whenever the playlist owner string is non-empty.
On success `$addToSet` appends the video id if absent. -/
def addVideoToPlaylist (s : Store) (playlistId videoId userId : Oid) :
    Except ApiError Playlist × Store :=
  if !(isValidObjectId playlistId || isValidObjectId videoId) then
    (.error ⟨400, "playlistId or videoId is invalid"⟩, s)
  else
    match findPlaylist s playlistId, findVideo s videoId with
    | none, _ => (.error ⟨400, "playlist not found"⟩, s)
    | some _, none => (.error ⟨400, "video not found"⟩, s)
    | some playlist, some video =>
      if !(jsAnd playlist.owner video.owner == userId) then
        (.error ⟨400, "only owner can add video to thier playlist"⟩, s)
      else
        let f := fun (p : Playlist) => { p with videos := addToSet p.videos videoId }
        let playlists2 := updateById Playlist._id playlistId f s.playlists
        (.ok (f playlist), { s with playlists := playlists2 })

/-- `removeVideoFromPlaylist`: same (buggy) validation and ownership gates
as `addVideoToPlaylist`; on success `$pull` removes every occurrence of the
video id (`findByIdAndUpdate` is passed the playlist document, which
mongoose casts to its `_id`). -/
def removeVideoFromPlaylist (s : Store) (playlistId videoId userId : Oid) :
    Except ApiError Playlist × Store :=
  if !(isValidObjectId playlistId || isValidObjectId videoId) then
    (.error ⟨400, "playlistId or videoId is invalid"⟩, s)
  else
    match findPlaylist s playlistId, findVideo s videoId with
    | none, _ => (.error ⟨400, "playlist not found"⟩, s)
    | some _, none => (.error ⟨400, "video not found"⟩, s)
    | some playlist, some video =>
      if !(jsAnd playlist.owner video.owner == userId) then
        (.error ⟨400, "only owner can remove video to thier playlist"⟩, s)
      else
        let f := fun (p : Playlist) =>
          { p with videos := p.videos.filter (fun v => !(v == videoId)) }
        let playlists2 := updateById Playlist._id playlist._id f s.playlists
        (.ok (f playlist), { s with playlists := playlists2 })

/-- `deletePlaylist`: malformed id, missing playlist, non-owner checks,
then `findByIdAndRemove`. -/
def deletePlaylist (s : Store) (playlistId userId : Oid) :
    Except ApiError Unit × Store :=
  if !(isValidObjectId playlistId) then
    (.error ⟨400, "playlistId or videoId is invalid"⟩, s)
  else
    match findPlaylist s playlistId with
    | none => (.error ⟨400, "playlistId not found"⟩, s)
    | some playlist =>
      if !(playlist.owner == userId) then
        (.error ⟨400, "only owner can delete video to thier playlist"⟩, s)
      else
        (.ok (), { s with playlists := removeById Playlist._id playlistId s.playlists })

/-- `updatePlaylist`: malformed id, empty name or description, missing
playlist, non-owner checks, then `findByIdAndUpdate` with
`$set {name, description}`. -/
def updatePlaylist (s : Store) (playlistId name description userId : String) :
    Except ApiError Playlist × Store :=
  if !(isValidObjectId playlistId) then
    (.error ⟨400, "playlistId or videoId is invalid"⟩, s)
  else if name == "" || description == "" then
    (.error ⟨400, "name and description are requiered"⟩, s)
  else
    match findPlaylist s playlistId with
    | none => (.error ⟨400, "playlist not found"⟩, s)
    | some playlist =>
      if !(playlist.owner == userId) then
        (.error ⟨400, "only owner can update to thier playlist"⟩, s)
      else
        let f := fun (p : Playlist) =>
          { p with name := name, description := description }
        let playlists2 := updateById Playlist._id playlistId f s.playlists
        (.ok (f playlist), { s with playlists := playlists2 })

/-! ## Concrete fixtures used by witnesses and counterexamples -/

/-- A well formed ObjectId of user Alice. -/
def uidA : Oid := "aaaa0000aaaa0000aaaa0000"

/-- A well formed ObjectId of a second user. -/
def uidB : Oid := "bbbb0000bbbb0000bbbb0000"

/-- A well formed ObjectId of a published video. -/
def vidA : Oid := "cccc0000cccc0000cccc0000"

/-- A well formed ObjectId of an unpublished video. -/
def vidB : Oid := "dddd0000dddd0000dddd0000"

/-- A well formed ObjectId of a playlist holding both videos. -/
def pidA : Oid := "eeee0000eeee0000eeee0000"

/-- A well formed ObjectId of a playlist holding only the unpublished
video. -/
def pidB : Oid := "ffff0000ffff0000ffff0000"

/-- A well formed ObjectId of a comment. -/
def cidA : Oid := "abab0000abab0000abab0000"

/-- User Alice. -/
def userA : User :=
  { _id := uidA, username := "alice", fullName := "Alice A"
    avatarUrl := "http://cdn/av.png" }

/-- A published video owned by Alice with 5 views. -/
def videoA : Video :=
  { _id := vidA, owner := uidA, videoFileUrl := "http://cdn/a.mp4"
    thumbnailUrl := "http://cdn/a.png", title := "a", description := "da"
    duration := 60, views := 5, isPublished := true, createdAt := 10 }

/-- An unpublished video owned by Alice with 7 views. -/
def videoB : Video :=
  { _id := vidB, owner := uidA, videoFileUrl := "http://cdn/b.mp4"
    thumbnailUrl := "http://cdn/b.png", title := "b", description := "db"
    duration := 90, views := 7, isPublished := false, createdAt := 11 }

/-- Alice's playlist holding the published and the unpublished video. -/
def plA : Playlist :=
  { _id := pidA, name := "mix", description := "dp", owner := uidA
    videos := [vidA, vidB], createdAt := 1, updatedAt := 2 }

/-- Alice's playlist holding only the unpublished video. -/
def plB : Playlist :=
  { _id := pidB, name := "hidden", description := "dq", owner := uidA
    videos := [vidB], createdAt := 3, updatedAt := 4 }

/-- Alice's comment on the published video. -/
def commentA : Comment :=
  { _id := cidA, content := "hi", owner := uidA, video := vidA, createdAt := 3 }

/-- A like on that comment by the second user. -/
def likeA : Like :=
  { _id := "baba0000baba0000baba0000", comment := some cidA, video := none
    likedBy := uidB }

/-- The concrete store the witnesses run against. -/
def store1 : Store :=
  { users := [userA], videos := [videoA, videoB], comments := [commentA]
    likes := [likeA], playlists := [plA, plB] }

/-- The comment view the pipeline produces for `commentA` without a viewer:
one like, `owner` empty (the owner lookup matches no user), not liked. -/
def commentViewA : CommentView :=
  { _id := cidA, content := "hi", createdAt := 3, likesCount := 1
    owner := none, isLiked := false }

/-- The comment view the pipeline produces for `commentA` when the second
user is the viewer: one like, `owner` empty, liked. -/
def commentViewLiked : CommentView :=
  { _id := cidA, content := "hi", createdAt := 3, likesCount := 1
    owner := none, isLiked := true }

/-- The playlist detail the pipeline produces for `plA`: both the published
and the unpublished video appear, and both aggregates range over both. -/
def detailA : PlaylistDetail :=
  { _id := pidA, name := "mix", description := "dp", createdAt := 1
    updatedAt := 2, totalVideos := 2, totalViews := 12
    videos := [projectVideo videoA, projectVideo videoB]
    owner := some (projectOwner userA) }

deriving instance DecidableEq for Except

/-! ## Helper lemmas -/

theorem find?_eq_filter_head? {α : Type} (p : α → Bool) (l : List α) :
    l.find? p = (l.filter p).head? := by
  induction l with
  | nil => rfl
  | cons x xs ih =>
    by_cases h : p x = true
    · rw [List.find?_cons_of_pos _ h, List.filter_cons_of_pos h]
      rfl
    · rw [List.find?_cons_of_neg _ h, List.filter_cons_of_neg h]
      exact ih

theorem mem_insertByCreatedDesc (v w : CommentView) (l : List CommentView) :
    w ∈ insertByCreatedDesc v l ↔ w = v ∨ w ∈ l := by
  induction l with
  | nil => simp [insertByCreatedDesc]
  | cons u rest ih =>
    by_cases h : v.createdAt ≤ u.createdAt <;>
      simp only [insertByCreatedDesc, h, if_true, if_false, List.mem_cons, ih] <;>
      tauto

theorem mem_sortByCreatedDesc (w : CommentView) (l : List CommentView) :
    w ∈ sortByCreatedDesc l ↔ w ∈ l := by
  induction l with
  | nil => simp [sortByCreatedDesc]
  | cons v rest ih => simp [sortByCreatedDesc, mem_insertByCreatedDesc, ih]

theorem find?_updateById {α : Type} (getId : α → Oid) (pid : Oid) (f : α → α)
    (hid : ∀ x, getId (f x) = getId x) (l : List α) (x : α)
    (hx : l.find? (fun y => getId y == pid) = some x) :
    (updateById getId pid f l).find? (fun y => getId y == pid) = some (f x) := by
  induction l with
  | nil => simp [List.find?] at hx
  | cons a rest ih =>
    cases h : getId a == pid with
    | true =>
      simp only [List.find?_cons, h] at hx
      cases hx
      simp [updateById, h, List.find?_cons, hid]
    | false =>
      simp only [List.find?_cons, h] at hx
      simp [updateById, h, List.find?_cons, ih hx]

theorem updateById_eq_self {α : Type} (getId : α → Oid) (pid : Oid) (f : α → α)
    (l : List α) (x : α)
    (hx : l.find? (fun y => getId y == pid) = some x) (hfx : f x = x) :
    updateById getId pid f l = l := by
  induction l with
  | nil => rfl
  | cons a rest ih =>
    cases h : getId a == pid with
    | true =>
      simp only [List.find?_cons, h] at hx
      cases hx
      simp [updateById, h, hfx]
    | false =>
      simp only [List.find?_cons, h] at hx
      simp [updateById, h, ih hx]

theorem contains_addToSet_self (l : List Oid) (v : Oid) :
    (addToSet l v).contains v = true := by
  unfold addToSet
  by_cases h : l.contains v <;> simp_all

theorem addToSet_idem (l : List Oid) (v : Oid) :
    addToSet (addToSet l v) v = addToSet l v := by
  unfold addToSet
  by_cases h : l.contains v <;> simp_all

theorem count_addToSet_of_le_one (l : List Oid) (v : Oid)
    (h : l.count v ≤ 1) : (addToSet l v).count v = 1 := by
  unfold addToSet
  by_cases hc : l.contains v
  · simp only [hc, if_true]
    have hm : v ∈ l := by simpa using hc
    have h1 : 1 ≤ l.count v := List.one_le_count_iff.mpr hm
    omega
  · simp only [hc, if_false]
    have hm : v ∉ l := by simpa using hc
    have h0 : l.count v = 0 := List.count_eq_zero.mpr hm
    simp [List.count_append, h0]

/-! ## Claims -/

/-- C2: the claim says a successful comment delete removes every Like
referencing the comment.  The code instead calls `Like.updateMany` with no
update document (and a `likedBy` filter on the acting user), which deletes
nothing: on the concrete store the delete succeeds, the comment is gone,
yet the like on that comment by another user is still present. -/
theorem c2_likes_survive_comment_delete :
    deleteComment store1 cidA uidA = (.ok cidA, { store1 with comments := [] }) ∧
    likeA.comment = some cidA ∧
    likeA.likedBy ≠ uidA ∧
    likeA ∈ (deleteComment store1 cidA uidA).2.likes := by decide

/-- C3: the claim says a malformed playlistId or videoId fails with a
validation error before any store access.  The gate in the code is
`!(isValidObjectId(playlistId) || isValidObjectId(videoId))`, which fires
only when both ids are malformed: with a well formed playlistId and the
malformed videoId "bad" both operations sail past the gate, reach the
store lookups and fail there with "video not found" instead of the
validation error. -/
theorem c3_validation_gate_needs_both_malformed :
    isValidObjectId "bad" = false ∧
    addVideoToPlaylist store1 pidA "bad" uidA =
      (.error ⟨400, "video not found"⟩, store1) ∧
    (addVideoToPlaylist store1 pidA "bad" uidA).1 ≠
      .error ⟨400, "playlistId or videoId is invalid"⟩ ∧
    removeVideoFromPlaylist store1 pidA "bad" uidA =
      (.error ⟨400, "video not found"⟩, store1) := by decide

/-- C4: the claim says each listed comment carries an owner object joined
from the user whose id equals the comment's owner.  The owner `$lookup`
in the code names the foreign field `"_id,"` — with a trailing comma — so
it never matches any user: on the concrete store the owning user exists,
yet the returned view's `owner` is empty. -/
theorem c4_owner_join_never_matches :
    (userA ∈ store1.users ∧ userA._id = commentA.owner) ∧
    getVideoComments store1 vidA none none none =
      .ok ([commentViewA], { page := some 1, limit := some 10 }) ∧
    commentViewA.owner = none ∧
    ownerLookup store1 commentA = [] := by decide

/-- C6 counterexample: with `page="0"` and `limit="abc"` supplied, the
options the controller builds are `page = 0` and `limit = NaN` — not the
claimed `page = 1`, `limit = 10`. -/
theorem c6_counterexample :
    paginationOptions (some "0") (some "abc") = { page := some 0, limit := none } ∧
    (paginationOptions (some "0") (some "abc")).page ≠ some 1 ∧
    (paginationOptions (some "0") (some "abc")).limit ≠ some 10 := by decide

/-- C6 (amended): the defaults `page = 1`, `limit = 10` apply only when the
query parameter is missing; a supplied parameter is passed through
`parseInt` unchanged (so a non-numeric, zero or negative value reaches the
paginator as is), and a successful `getVideoComments` call uses exactly
these options. -/
theorem c6_defaults_only_when_missing (pageQ limitQ : Option String) :
    (pageQ = none → (paginationOptions pageQ limitQ).page = some 1) ∧
    (limitQ = none → (paginationOptions pageQ limitQ).limit = some 10) ∧
    (∀ v, pageQ = some v → (paginationOptions pageQ limitQ).page = jsParseInt v) ∧
    (∀ v, limitQ = some v → (paginationOptions pageQ limitQ).limit = jsParseInt v) ∧
    (∀ s vid viewer out, getVideoComments s vid viewer pageQ limitQ = .ok out →
      out.2 = paginationOptions pageQ limitQ) := by
  refine ⟨?_, ?_, ?_, ?_, ?_⟩
  · intro h; subst h; rfl
  · intro h; subst h; rfl
  · intro v h; subst h; rfl
  · intro v h; subst h; rfl
  · intro s vid viewer out hok
    unfold getVideoComments at hok
    cases hfv : findVideo s vid with
    | none => rw [hfv] at hok; simp at hok
    | some vd =>
      rw [hfv] at hok
      injection hok with h
      rw [← h]

/-- C6 witness: with `page` missing and `limit = "7"` the options are
`page = 1` and `limit = parseInt("7")`. -/
theorem c6_witness :
    (paginationOptions none (some "7")).page = some 1 ∧
    (paginationOptions none (some "7")).limit = jsParseInt "7" :=
  ⟨(c6_defaults_only_when_missing none (some "7")).1 rfl,
   (c6_defaults_only_when_missing none (some "7")).2.2.2.1 "7" rfl⟩

/-- C10: every mutation either fails returning the store exactly as it was
— all validation, existence and ownership failures are raised before any
write — or succeeds; in this deterministic store model no other failure
arises, so any failing call leaves the store untouched. -/
theorem c10_no_write_on_failure :
    (∀ s videoId content ownerId newId now,
      (∃ e, addComment s videoId content ownerId newId now = (.error e, s)) ∨
      (∃ c s2, addComment s videoId content ownerId newId now = (.ok c, s2))) ∧
    (∀ s commentId content userId,
      (∃ e, updateComment s commentId content userId = (.error e, s)) ∨
      (∃ c s2, updateComment s commentId content userId = (.ok c, s2))) ∧
    (∀ s commentId userId,
      (∃ e, deleteComment s commentId userId = (.error e, s)) ∨
      (∃ r s2, deleteComment s commentId userId = (.ok r, s2))) ∧
    (∀ s name description ownerId newId now,
      (∃ e, createPlaylist s name description ownerId newId now = (.error e, s)) ∨
      (∃ p s2, createPlaylist s name description ownerId newId now = (.ok p, s2))) ∧
    (∀ s playlistId name description userId,
      (∃ e, updatePlaylist s playlistId name description userId = (.error e, s)) ∨
      (∃ p s2, updatePlaylist s playlistId name description userId = (.ok p, s2))) ∧
    (∀ s playlistId userId,
      (∃ e, deletePlaylist s playlistId userId = (.error e, s)) ∨
      (∃ r s2, deletePlaylist s playlistId userId = (.ok r, s2))) ∧
    (∀ s playlistId videoId userId,
      (∃ e, addVideoToPlaylist s playlistId videoId userId = (.error e, s)) ∨
      (∃ p s2, addVideoToPlaylist s playlistId videoId userId = (.ok p, s2))) ∧
    (∀ s playlistId videoId userId,
      (∃ e, removeVideoFromPlaylist s playlistId videoId userId = (.error e, s)) ∨
      (∃ p s2, removeVideoFromPlaylist s playlistId videoId userId = (.ok p, s2))) := by
  refine ⟨?_, ?_, ?_, ?_, ?_, ?_, ?_, ?_⟩
  · intro s videoId content ownerId newId now
    unfold addComment
    split
    · exact .inl ⟨_, rfl⟩
    · split
      · exact .inl ⟨_, rfl⟩
      · exact .inr ⟨_, _, rfl⟩
  · intro s commentId content userId
    unfold updateComment
    split
    · exact .inl ⟨_, rfl⟩
    · split
      · exact .inl ⟨_, rfl⟩
      · split
        · exact .inl ⟨_, rfl⟩
        · exact .inr ⟨_, _, rfl⟩
  · intro s commentId userId
    unfold deleteComment
    split
    · exact .inl ⟨_, rfl⟩
    · split
      · exact .inl ⟨_, rfl⟩
      · exact .inr ⟨_, _, rfl⟩
  · intro s name description ownerId newId now
    unfold createPlaylist
    split
    · exact .inl ⟨_, rfl⟩
    · exact .inr ⟨_, _, rfl⟩
  · intro s playlistId name description userId
    unfold updatePlaylist
    split
    · exact .inl ⟨_, rfl⟩
    · split
      · exact .inl ⟨_, rfl⟩
      · split
        · exact .inl ⟨_, rfl⟩
        · split
          · exact .inl ⟨_, rfl⟩
          · exact .inr ⟨_, _, rfl⟩
  · intro s playlistId userId
    unfold deletePlaylist
    split
    · exact .inl ⟨_, rfl⟩
    · split
      · exact .inl ⟨_, rfl⟩
      · split
        · exact .inl ⟨_, rfl⟩
        · exact .inr ⟨_, _, rfl⟩
  · intro s playlistId videoId userId
    unfold addVideoToPlaylist
    split
    · exact .inl ⟨_, rfl⟩
    · split
      · exact .inl ⟨_, rfl⟩
      · exact .inl ⟨_, rfl⟩
      · split
        · exact .inl ⟨_, rfl⟩
        · exact .inr ⟨_, _, rfl⟩
  · intro s playlistId videoId userId
    unfold removeVideoFromPlaylist
    split
    · exact .inl ⟨_, rfl⟩
    · split
      · exact .inl ⟨_, rfl⟩
      · exact .inl ⟨_, rfl⟩
      · split
        · exact .inl ⟨_, rfl⟩
        · exact .inr ⟨_, _, rfl⟩

/-- C5: when the playlist and the video both exist and both carry non-empty
owner ids, the ownership gate of add/remove-video rejects exactly when the
video's owner differs from the acting user — the right hand side of the
equivalence does not mention the playlist's owner, which the JavaScript
`&&` coercion discards. -/
theorem c5_video_owner_decides (s : Store) (pid vid uid : Oid)
    (p : Playlist) (v : Video)
    (hval : (isValidObjectId pid || isValidObjectId vid) = true)
    (hp : findPlaylist s pid = some p)
    (hv : findVideo s vid = some v)
    (hpo : p.owner ≠ "") (hvo : v.owner ≠ "") :
    ((addVideoToPlaylist s pid vid uid).1 =
        .error ⟨400, "only owner can add video to thier playlist"⟩ ↔
      v.owner ≠ uid) ∧
    ((removeVideoFromPlaylist s pid vid uid).1 =
        .error ⟨400, "only owner can remove video to thier playlist"⟩ ↔
      v.owner ≠ uid) := by
  have hcond : (p.owner == "") = false := by
    simp [hpo]
  have hja : jsAnd p.owner v.owner = v.owner := by
    unfold jsAnd
    rw [hcond]
    simp
  constructor
  · unfold addVideoToPlaylist
    rw [hval, hp, hv]
    simp only [Bool.not_true, Bool.false_eq_true, if_false, hja]
    by_cases h : v.owner = uid <;> simp [h]
  · unfold removeVideoFromPlaylist
    rw [hval, hp, hv]
    simp only [Bool.not_true, Bool.false_eq_true, if_false, hja]
    by_cases h : v.owner = uid <;> simp [h]

/-- C5 witness: on the concrete store, with acting user B who owns neither
document, both gates reject, and B differs from the video's owner. -/
theorem c5_witness :
    ((addVideoToPlaylist store1 pidA vidA uidB).1 =
        .error ⟨400, "only owner can add video to thier playlist"⟩ ↔
      videoA.owner ≠ uidB) ∧
    ((removeVideoFromPlaylist store1 pidA vidA uidB).1 =
        .error ⟨400, "only owner can remove video to thier playlist"⟩ ↔
      videoA.owner ≠ uidB) :=
  c5_video_owner_decides store1 pidA vidA uidB plA videoA (by decide)
    (by decide) (by decide) (by decide) (by decide)

/-- C9: an existing playlist none of whose (joined) videos is published —
the empty membership included — passes the existence check, yet the
document level `$match {"videos.isPublished": true}` drops it from the
aggregation, so `getPlaylistById` succeeds with an absent payload. -/
theorem c9_no_published_videos_detail_absent (s : Store) (pid : Oid)
    (p : Playlist)
    (hval : isValidObjectId pid = true)
    (hmatch : s.playlists.filter (fun q => q._id == pid) = [p])
    (hnopub : (playlistVideosLookup s p).any (fun v => v.isPublished) = false) :
    getPlaylistById s pid = .ok none := by
  have hfind : findPlaylist s pid = some p := by
    unfold findPlaylist
    rw [find?_eq_filter_head?, hmatch]
    rfl
  unfold getPlaylistById
  rw [hval, hfind]
  simp only [Bool.not_true, Bool.false_eq_true, if_false]
  unfold playlistDetailPipeline
  rw [hmatch]
  simp [hnopub]

/-- C9 witness: the concrete playlist holding only the unpublished video
exists, and its detail is absent. -/
theorem c9_witness : getPlaylistById store1 pidB = .ok none :=
  c9_no_published_videos_detail_absent store1 pidB plB (by decide) (by decide)
    (by decide)

/-- C1 counterexample: on the concrete store the playlist holds one
published video (5 views) and one unpublished video (7 views); the claim
predicts a detail with only the published video, `totalVideos = 1` and
`totalViews = 5`, but `getPlaylistById` returns both videos with
`totalVideos = 2` and `totalViews = 12` — the `$match` on
`videos.isPublished` keeps whole documents and never narrows the joined
array. -/
theorem c1_counterexample :
    getPlaylistById store1 pidA = .ok (some detailA) ∧
    ((playlistVideosLookup store1 plA).filter (fun v => v.isPublished)).map
        (fun v => v.views) = [5] ∧
    videoB.isPublished = false ∧
    detailA.videos = [projectVideo videoA, projectVideo videoB] ∧
    detailA.totalVideos = 2 ∧
    detailA.totalVideos ≠
      ((playlistVideosLookup store1 plA).filter (fun v => v.isPublished)).length ∧
    detailA.totalViews = 12 ∧
    detailA.totalViews ≠
      (((playlistVideosLookup store1 plA).filter (fun v => v.isPublished)).map
        (fun v => v.views)).sum := by decide

/-- C1 (amended): for a playlist whose joined videos hold at least one
published element, `getPlaylistById` returns a detail whose videos list
contains all of the playlist's joined videos — published or not — and
whose `totalVideos` / `totalViews` count and sum over that full list; the
published-video condition only decides whether the detail is present at
all. -/
theorem c1_detail_aggregates_all_videos (s : Store) (pid : Oid)
    (p : Playlist)
    (hval : isValidObjectId pid = true)
    (hmatch : s.playlists.filter (fun q => q._id == pid) = [p])
    (hpub : (playlistVideosLookup s p).any (fun v => v.isPublished) = true) :
    getPlaylistById s pid = .ok (some
      { _id := p._id, name := p.name, description := p.description
        createdAt := p.createdAt, updatedAt := p.updatedAt
        totalVideos := (playlistVideosLookup s p).length
        totalViews := ((playlistVideosLookup s p).map (fun v => v.views)).sum
        videos := (playlistVideosLookup s p).map projectVideo
        owner := ((s.users.filter (fun u => u._id == p.owner)).head?).map
          projectOwner }) := by
  have hfind : findPlaylist s pid = some p := by
    unfold findPlaylist
    rw [find?_eq_filter_head?, hmatch]
    rfl
  unfold getPlaylistById
  rw [hval, hfind]
  simp only [Bool.not_true, Bool.false_eq_true, if_false]
  unfold playlistDetailPipeline
  rw [hmatch]
  simp [hpub]

/-- C1 witness: the amended statement evaluated on the concrete store. -/
theorem c1_witness :
    getPlaylistById store1 pidA = .ok (some
      { _id := plA._id, name := plA.name, description := plA.description
        createdAt := plA.createdAt, updatedAt := plA.updatedAt
        totalVideos := (playlistVideosLookup store1 plA).length
        totalViews := ((playlistVideosLookup store1 plA).map (fun v => v.views)).sum
        videos := (playlistVideosLookup store1 plA).map projectVideo
        owner := ((store1.users.filter (fun u => u._id == plA.owner)).head?).map
          projectOwner }) :=
  c1_detail_aggregates_all_videos store1 pidA plA (by decide) (by decide)
    (by decide)

/-- C7: for every view a successful `getVideoComments` produces, `isLiked`
is true exactly when some like referencing that comment was placed by the
viewer, `isLiked` is false whenever no viewer id is supplied, and
`likesCount` is the exact number of likes referencing the comment
(including zero). -/
theorem c7_isLiked_and_likesCount (s : Store) (vid : Oid)
    (viewer : Option Oid) (pageQ limitQ : Option String)
    (out : List CommentView × PageOptions) (w : CommentView)
    (hok : getVideoComments s vid viewer pageQ limitQ = .ok out)
    (hw : w ∈ out.1) :
    (w.isLiked = true ↔
      ∃ l ∈ s.likes, l.comment = some w._id ∧ viewer = some l.likedBy) ∧
    (viewer = none → w.isLiked = false) ∧
    w.likesCount =
      (s.likes.filter (fun l => l.comment == some w._id)).length := by
  unfold getVideoComments at hok
  cases hfv : findVideo s vid with
  | none => rw [hfv] at hok; simp at hok
  | some vd =>
    rw [hfv] at hok
    injection hok with h
    rw [← h] at hw
    simp only [commentPipeline] at hw
    rw [mem_sortByCreatedDesc, List.mem_map] at hw
    obtain ⟨c, hc, hfc⟩ := hw
    rw [List.mem_filter] at hc
    subst hfc
    refine ⟨?_, ?_, ?_⟩
    · simp only [List.any_eq_true, commentLikes, List.mem_filter, beq_iff_eq]
      constructor
      · rintro ⟨l, ⟨hl, hlc⟩, hlb⟩
        exact ⟨l, hl, hlc, hlb⟩
      · rintro ⟨l, hl, hlc, hlb⟩
        exact ⟨l, ⟨hl, hlc⟩, by simp [hlb]⟩
    · intro hnone
      subst hnone
      simp only []
      rw [List.any_eq_false]
      intro l _
      simp
    · rfl

/-- C7 witness: on the concrete store with user B as viewer, the returned
view is liked exactly because B's like references the comment, and its
like count is the cardinality of the referencing like set. -/
theorem c7_witness :
    (commentViewLiked.isLiked = true ↔
      ∃ l ∈ store1.likes, l.comment = some commentViewLiked._id ∧
        (some uidB : Option Oid) = some l.likedBy) ∧
    ((some uidB : Option Oid) = none → commentViewLiked.isLiked = false) ∧
    commentViewLiked.likesCount =
      (store1.likes.filter
        (fun l => l.comment == some commentViewLiked._id)).length :=
  c7_isLiked_and_likesCount store1 vidA (some uidB) none none
    ([commentViewLiked], { page := some 1, limit := some 10 })
    commentViewLiked rfl (by decide)

/-- C8: when `addVideoToPlaylist` succeeds (its gates pass and the stored
playlist holds the video id at most once, per the set-semantics
invariant), running it again with the same ids succeeds, returns the same
playlist, leaves the store exactly as after the first call, and the video
id occurs exactly once in the resulting video set — `$addToSet` adds
nothing the second time. -/
theorem c8_addVideo_idempotent (s : Store) (pid vid uid : Oid)
    (p : Playlist) (v : Video)
    (hval : (isValidObjectId pid || isValidObjectId vid) = true)
    (hp : findPlaylist s pid = some p)
    (hv : findVideo s vid = some v)
    (hauth : (jsAnd p.owner v.owner == uid) = true)
    (hcount : p.videos.count vid ≤ 1) :
    ∃ p2 s2, addVideoToPlaylist s pid vid uid = (.ok p2, s2) ∧
      addVideoToPlaylist s2 pid vid uid = (.ok p2, s2) ∧
      p2.videos.count vid = 1 := by
  have key : ∀ (st : Store) (q : Playlist), findPlaylist st pid = some q →
      findVideo st vid = some v → (jsAnd q.owner v.owner == uid) = true →
      addVideoToPlaylist st pid vid uid =
        (.ok (addVidF vid q),
         { st with playlists := updateById Playlist._id pid (addVidF vid) st.playlists }) := by
    intro st q hq hvv ha
    unfold addVideoToPlaylist
    rw [hval, hq, hvv]
    simp only [ha, Bool.not_true, Bool.false_eq_true, if_false]
    rfl
  have first := key s p hp hv hauth
  have hp2 : findPlaylist
      { s with playlists := updateById Playlist._id pid (addVidF vid) s.playlists }
      pid = some (addVidF vid p) :=
    find?_updateById Playlist._id pid (addVidF vid) (fun r => rfl) s.playlists p hp
  have second := key _ _ hp2 hv hauth
  have hidem : addVidF vid (addVidF vid p) = addVidF vid p := by
    unfold addVidF
    rw [addToSet_idem]
  have hself : updateById Playlist._id pid (addVidF vid)
      (updateById Playlist._id pid (addVidF vid) s.playlists) =
      updateById Playlist._id pid (addVidF vid) s.playlists :=
    updateById_eq_self Playlist._id pid (addVidF vid) _ _ hp2 hidem
  refine ⟨addVidF vid p,
    { s with playlists := updateById Playlist._id pid (addVidF vid) s.playlists },
    first, ?_, ?_⟩
  · rw [second, hself, hidem]
  · exact count_addToSet_of_le_one p.videos vid hcount

/-- C8 witness: re-adding the already-present published video to the
concrete playlist succeeds and leaves its id in the set exactly once. -/
theorem c8_witness :
    ∃ p2 s2, addVideoToPlaylist store1 pidA vidA uidA = (.ok p2, s2) ∧
      addVideoToPlaylist s2 pidA vidA uidA = (.ok p2, s2) ∧
      p2.videos.count vidA = 1 :=
  c8_addVideo_idempotent store1 pidA vidA uidA plA videoA (by decide)
    (by decide) (by decide) (by decide) (by decide)
